import Mathlib

/-!
Verification of the nodemigo request-handling toolkit.

The definitions below are a shallow embedding of the JavaScript sources:

* `src/src/controller.js` — `parseSkipLimitSortOrder`, `parseQueryParams`,
  `successResponse`, `errorResponse`, `finalResponse`;
* `src/unnamed/part_002` (second controller variant) — `parsePagination`,
  `finalResponse`;
* `src/lib/router.js` / `src/unnamed/part_002` (router) —
  `addControllerRoutes`, `_buildHandler`.

Query-string values are modelled as `Option String` (a missing parameter is
`none`); JavaScript machine numbers that the code produces via `_.parseInt`
are modelled as `Option Int` (`none` is `NaN`).
-/

namespace Nodemigo

/-! ### JavaScript primitives used by the sources -/

/-- JavaScript `a || b` on optional strings: the empty string is falsy, every
other string is truthy (`req.query.offset || req.query.skip`). -/
def qor : Option String → Option String → Option String
  | some s, b => if s = "" then b else some s
  | none, b => b

/-- JavaScript `a || dflt` returning a string, with `""` falsy
(`req.query.logical || 'and'`). -/
def jsOrStr (a : Option String) (dflt : String) : String :=
  match a with
  | some s => if s = "" then dflt else s
  | none => dflt

/-- JavaScript `String.prototype.toLowerCase()` character by character (the
route methods, paths and operator tokens in this repository are ASCII). -/
def jsToLower (s : String) : String := ⟨s.data.map Char.toLower⟩

/-- Value of a list of decimal digit characters. -/
def digitsVal (l : List Char) : Option Nat :=
  let ds := l.takeWhile Char.isDigit
  if ds.isEmpty then none
  else some (ds.foldl (fun a c => a * 10 + (c.toNat - 48)) 0)

/-- `_.parseInt` on a string: skip leading whitespace, optional sign, then the
leading run of decimal digits; `none` models `NaN` (no digits).  The hex form
`0x…` accepted by lodash is not exercised by this repository and is omitted. -/
def parseIntStr (s : String) : Option Int :=
  match s.data.dropWhile Char.isWhitespace with
  | '-' :: rest => (digitsVal rest).map (fun n => -(n : Int))
  | '+' :: rest => (digitsVal rest).map (fun n => (n : Int))
  | rest => (digitsVal rest).map (fun n => (n : Int))

/-- `_.parseInt` applied to a possibly-missing string (`parseInt(undefined)`
is `NaN`, i.e. `none`). -/
def parseIntJs : Option String → Option Int
  | none => none
  | some s => parseIntStr s

/-- JavaScript `x || 0` where `x` is a number or `NaN`: `NaN` and `0` are both
falsy and give `0`. -/
def orZero : Option Int → Int
  | none => 0
  | some n => n

/-! ### Pagination resolver — `parsePagination` (src/unnamed/part_002:392-414);
`parseSkipLimitSortOrder` (src/src/controller.js:70-114) computes the same
`skip`/`limit`/`page` triple under the name `skip` for the offset. -/

/-- Raw paging-related query parameters of a request. -/
structure PagingQuery where
  offset : Option String := none
  skip : Option String := none
  limit : Option String := none
  count : Option String := none
  page : Option String := none
deriving DecidableEq

/-- The resolved paging triple returned by `parsePagination`. -/
structure PageSpec where
  offset : Int
  limit : Int
  page : Int
deriving DecidableEq

/-- `_.parseInt(req.query.offset || req.query.skip) || 0`. -/
def parsedOffset0 (q : PagingQuery) : Int := orZero (parseIntJs (qor q.offset q.skip))

/-- `_.parseInt(req.query.limit || req.query.count) || 0`. -/
def parsedLimit (q : PagingQuery) : Int := orZero (parseIntJs (qor q.limit q.count))

/-- `_.parseInt(req.query.page) || 0`. -/
def parsedPage (q : PagingQuery) : Int := orZero (parseIntJs q.page)

/-- `parsePagination` (src/unnamed/part_002:392-414): when `page > 0` the
offset is recomputed as `(page - 1) * limit`, otherwise the parsed offset is
kept; `limit` and `page` are returned as parsed. -/
def parsePagination (q : PagingQuery) : PageSpec :=
  let offset := parsedOffset0 q
  let limit := parsedLimit q
  let page := parsedPage q
  { offset := if page > 0 then (page - 1) * limit else offset
    limit := limit
    page := page }

/-! ### Error classification table (src/src/controller.js:276-310) -/

/-- The `switch (error.statusCode)` table assigning `defaultErrorType`
(src/src/controller.js:276-310): specific entries for
400/401/402/403/404/405/406/409/410/501, with `case 500` and `default` both
yielding `INTERNAL_SERVER_ERROR`. -/
def defaultErrorType (sc : Int) : String :=
  if sc = 400 then "BAD_REQUEST"
  else if sc = 401 then "UNAUTHORIZED"
  else if sc = 402 ∨ sc = 403 then "FORBIDDEN"
  else if sc = 404 then "NOT_FOUND"
  else if sc = 405 then "METHOD_NOT_ALLOWED"
  else if sc = 406 then "NOT_ACCEPTABLE"
  else if sc = 409 then "CONFLICT"
  else if sc = 410 then "GONE"
  else if sc = 501 then "NOT_IMPLEMENTED"
  else "INTERNAL_SERVER_ERROR"

/-- The status codes with a specific entry in the classification switch. -/
def specificCodes : List Int := [400, 401, 402, 403, 404, 405, 406, 409, 410, 501, 500]

/-! ### Route registration — `addControllerRoutes`
(src/lib/router.js:39-93, identical logic in src/unnamed/part_002:847-898). -/

/-- A controller route entry as inspected by `addControllerRoutes`:
`method` is the raw `route.method` (`none` = absent), `path` is `route.path`
when it is a string (`_.isString`), and `action` records whether
`route.action` is a function (`_.isFunction`). -/
structure RouteDef where
  method : Option String := none
  path : Option String := none
  action : Bool := true
deriving DecidableEq

/-- JavaScript object assignment `paths[path] = method` on the de-duping map:
the previous binding for `path`, if any, is replaced. -/
def updatePaths (m : List (String × String)) (p v : String) : List (String × String) :=
  (p, v) :: m.eraseP (fun q => q.1 == p)

/-- `route.method ? route.method.toLowerCase() : 'get'` — an absent or empty
(falsy) method defaults to `get`. -/
def effectiveMethod (m : Option String) : String :=
  match m with
  | none => "get"
  | some s => if s = "" then "get" else jsToLower s

/-- One iteration of the route loop in `addControllerRoutes`
(src/lib/router.js:46-86).  The state is the de-duping map `paths`
(path → most recently connected method) and the `routes` list of connected
`(method, path)` pairs. -/
def connectRoute (st : List (String × String) × List (String × String))
    (r : RouteDef) : List (String × String) × List (String × String) :=
  match r.path, r.action with
  | some p, true =>
    let method := effectiveMethod r.method
    let path := jsToLower p
    if st.1.lookup path == some method then st
    else (updatePaths st.1 path method, st.2 ++ [(method, path)])
  | _, _ => st

/-- `addControllerRoutes` (src/lib/router.js:39-93): iterate over every
controller's `routes` list in registration order, connecting each valid route
that survives the de-duping check, and return the list of connected
`(method, path)` pairs. -/
def addControllerRoutes (controllers : List (List RouteDef)) : List (String × String) :=
  (controllers.foldl (fun st c => c.foldl connectRoute st) ([], [])).2

/-! ### Inner handler blacklist/whitelist — `_buildHandler`
(src/lib/router.js:103-147). -/

/-- `_.omit(m, ks)`: drop the entries whose key is named in `ks`. -/
def jsOmit (m : List (String × String)) (ks : List String) : List (String × String) :=
  m.filter (fun p => !(ks.contains p.1))

/-- `_.pick(m, ks)`: keep only the entries whose key is named in `ks`. -/
def jsPick (m : List (String × String)) (ks : List String) : List (String × String) :=
  m.filter (fun p => ks.contains p.1)

/-- The param-filtering portion of the handler built by `_buildHandler`
(src/lib/router.js:128-142) applied to one of the three request maps: omit the
blacklisted fields when the blacklist is non-empty, then pick the whitelisted
fields when the whitelist is non-empty. -/
def applyListFilters (bl wl : List String) (m : List (String × String)) :
    List (String × String) :=
  let m1 := if bl.isEmpty then m else jsOmit m bl
  if wl.isEmpty then m1 else jsPick m1 wl

/-- The blacklist/whitelist portion of a route spec consumed by
`_buildHandler` (`route.blacklist || []`, `route.whitelist || []`). -/
structure RouteLists where
  blacklist : List String := []
  whitelist : List String := []

/-- The three mutable request maps rewritten by the inner handler. -/
structure ReqMaps where
  params : List (String × String) := []
  query : List (String × String) := []
  body : List (String × String) := []

/-- The inner handler's rewriting of `req.params`/`req.query`/`req.body`
(src/lib/router.js:128-142). -/
def handlerParamFilter (route : RouteLists) (req : ReqMaps) : ReqMaps :=
  { params := applyListFilters route.blacklist route.whitelist req.params
    query := applyListFilters route.blacklist route.whitelist req.query
    body := applyListFilters route.blacklist route.whitelist req.body }

/-! ### Filter compiler — `parseQueryParams` (src/src/controller.js:116-207).

A schema (`this.queryParams`) and a raw query are association lists from
parameter name to type tag / raw string value.  The compiled Mongo-style query
object is mirrored by the tagged union `QueryExpr`: a one-key object
`{key: v}` is `Filter.eq`, the per-param `{$or: [{key: v}, …]}` object is
`Filter.orF`, and the combined `{$op: [filters]}` object is
`QueryExpr.group`. -/

/-- A compiled query value: booleans, strings, escaped case-insensitive
regexes (`{$regex, $options: 'i'}`), integers (`none` = `NaN`), floats (kept
as the raw token — no claim depends on float value semantics), and the empty
array produced by the `'[]'` sentinel. -/
inductive QVal where
  | b (v : Bool)
  | s (v : String)
  | regex (pattern : String) (options : String)
  | i (v : Option Int)
  | fl (raw : String)
  | emptyArr
deriving DecidableEq

/-- A per-parameter filter clause. -/
inductive Filter where
  | eq (key : String) (v : QVal)
  | orF (clauses : List (String × QVal))
deriving DecidableEq

/-- The combined query expression returned by `parseQueryParams`. -/
inductive QueryExpr where
  | empty
  | single (f : Filter)
  | group (op : String) (fs : List Filter)
deriving DecidableEq

/-- The characters escaped by `escapeRegExp` (src/src/controller.js:5-7). -/
def regexSpecials : List Char :=
  ['-', '[', ']', '/', '\x7b', '\x7d', '(', ')', '*', '+', '?', '.', '\\', '^', '$', '|']

/-- `escapeRegExp`: prefix every regex metacharacter with a backslash. -/
def escapeRegExp (s : String) : String :=
  ⟨s.data.flatMap (fun c => if regexSpecials.contains c then ['\\', c] else [c])⟩

/-- JavaScript `String.prototype.split(',')` for a single-character
separator; splitting the empty string yields `[""]`, never `[]`. -/
def splitCommaAux : List Char → List Char → List String
  | [], acc => [⟨acc.reverse⟩]
  | c :: cs, acc =>
    if c = ',' then ⟨acc.reverse⟩ :: splitCommaAux cs []
    else splitCommaAux cs (c :: acc)

/-- `val.split(',')` (src/src/controller.js:138). -/
def splitCommas (s : String) : List String := splitCommaAux s.data []

/-- The `bool` token mapping (src/src/controller.js:153-161): `true` for
`"true"`/`"yes"`/`"1"`; `false` for the recognized false tokens and for every
unrecognized token alike. -/
def jsBoolToken (v : String) : Bool :=
  if v = "true" ∨ v = "yes" ∨ v = "1" then true else false

/-- The per-type transform of the split tokens
(src/src/controller.js:152-180); `none` is the `else` branch that drops a
parameter with an invalid or unknown type. -/
def transformVals (type : String) (vals : List String) : Option (List QVal) :=
  if type = "bool" ∨ type = "boolean" then
    some (vals.map (fun v => QVal.b (jsBoolToken v)))
  else if type = "string" then some (vals.map QVal.s)
  else if type = "regex" then
    some (vals.map (fun v => QVal.regex (escapeRegExp v) "i"))
  else if type = "integer" then some (vals.map (fun v => QVal.i (parseIntStr v)))
  else if type = "float" then some (vals.map QVal.fl)
  else none

/-- Build the per-parameter clause from the transformed values
(src/src/controller.js:182-194): a single value becomes a direct equality —
with the `'[]'` sentinel mapped to the empty array — and several values
become the `$or` of per-value equalities on the same key. -/
def mkClause (key : String) (tvals : List QVal) : Filter :=
  match tvals with
  | [tv] => Filter.eq key (if tv = QVal.s "[]" then QVal.emptyArr else tv)
  | _ => Filter.orF (tvals.map (fun tv => (key, tv)))

/-- The body of the `_.forEach(params, (val, key) => …)` loop
(src/src/controller.js:126-197) for one raw parameter: `none` when the
parameter contributes no filter (the `'*'` sentinel, an empty split, or an
unknown type). -/
def compileParam (schema : List (String × String)) (kv : String × String) :
    Option Filter :=
  if kv.2 = "*" then none
  else if (splitCommas kv.2).isEmpty then none
  else
    match schema.lookup kv.1 with
    | none => none
    | some type => (transformVals type (splitCommas kv.2)).map (mkClause kv.1)

/-- Strip `@` and whitespace from the logical-operator token
(`.replace(/[@\s]/g, '')`). -/
def stripAtWs (s : String) : String :=
  ⟨s.data.filter (fun c => !(c = '@' ∨ c.isWhitespace))⟩

/-- The `$`-prefixed logical operator
(src/src/controller.js:124): `'$' + (req.query.logical || 'and')`
lowercased and stripped of `@`/whitespace. -/
def logicalOp (raw : List (String × String)) : String :=
  "$" ++ stripAtWs (jsToLower (jsOrStr (raw.lookup "logical") "and"))

/-- Combining the per-parameter filters (src/src/controller.js:199-204): zero
clauses give the empty object, one clause is assigned verbatim, several are
grouped under the logical operator. -/
def combineQueries (op : String) : List Filter → QueryExpr
  | [] => QueryExpr.empty
  | [f] => QueryExpr.single f
  | fs => QueryExpr.group op fs

/-- Does the schema declare the key (`_.keys(this.queryParams)` membership)? -/
def schemaHas (schema : List (String × String)) (k : String) : Bool :=
  (schema.lookup k).isSome

/-- `parseQueryParams` (src/src/controller.js:116-207): restrict the raw
query to schema-declared keys (`_.pick`), compile each surviving parameter,
and combine the clauses. -/
def parseQueryParams (schema raw : List (String × String)) : QueryExpr :=
  combineQueries (logicalOp raw)
    ((raw.filter (fun p => schemaHas schema p.1)).filterMap (compileParam schema))

/-- The field names occurring in the equality clauses of a filter. -/
def filterFields : Filter → List String
  | .eq k _ => [k]
  | .orF cl => cl.map Prod.fst

/-- The field names occurring in the equality clauses of a compiled query
expression (the `$or` tag and the logical-group operator are structure, not
fields). -/
def exprFields : QueryExpr → List String
  | .empty => []
  | .single f => filterFields f
  | .group _ fs => fs.flatMap filterFields

/-! ### JavaScript values for the response pipeline -/

/-- A structural model of the JavaScript values flowing through the response
pipeline (`res.data`, `res.envelope`, `res.paging`). -/
inductive Jv where
  | undef
  | null
  | bool (b : Bool)
  | num (n : Int)
  | str (s : String)
  | arr (xs : List Jv)
  | obj (fs : List (String × Jv))

mutual
/-- Structural equality test on `Jv` values. -/
def beqJv : Jv → Jv → Bool
  | .undef, .undef => true
  | .null, .null => true
  | .bool a, .bool b => a == b
  | .num a, .num b => a == b
  | .str a, .str b => a == b
  | .arr xs, .arr ys => beqJvList xs ys
  | .obj xs, .obj ys => beqJvFields xs ys
  | _, _ => false

/-- Elementwise equality of arrays. -/
def beqJvList : List Jv → List Jv → Bool
  | [], [] => true
  | x :: xs, y :: ys => beqJv x y && beqJvList xs ys
  | _, _ => false

/-- Fieldwise equality of objects. -/
def beqJvFields : List (String × Jv) → List (String × Jv) → Bool
  | [], [] => true
  | (k, x) :: xs, (l, y) :: ys => k == l && beqJv x y && beqJvFields xs ys
  | _, _ => false
end

/-- JavaScript truthiness on a `Jv` value: `undefined`, `null`, `false`, `0`
and `""` are falsy (`res.data || {}`, src/src/controller.js:214). -/
def falsyJv : Jv → Bool
  | .undef => true
  | .null => true
  | .bool b => !b
  | .num n => n == 0
  | .str s => s == ""
  | _ => false

/-- `_.isPlainObject` as used on `res.paging` (src/src/controller.js:218). -/
def isPlainObj : Jv → Bool
  | .obj _ => true
  | _ => false

/-! ### Success envelope — `successResponse` (src/src/controller.js:209-226) -/

/-- The response state consumed by `successResponse`: the status code set by
the handler, `res.data` and `res.paging` (`Jv.undef` when unset). -/
structure ResS where
  statusCode : Int
  data : Jv := Jv.undef
  paging : Jv := Jv.undef

/-- The `meta` part of a success envelope. -/
structure MetaS where
  statusCode : Int
  paging : Option Jv
deriving Nonempty

/-- A success envelope: `{meta: {statusCode, paging?}, data}`. -/
structure EnvelopeS where
  meta : MetaS
  data : Jv

/-- `successResponse` (src/src/controller.js:209-226): build the envelope
with `data: res.data || {}` and optional plain-object paging, then withhold it
entirely (`res.envelope = undefined`) when the status code is 204. -/
def successResponse (res : ResS) : Option EnvelopeS :=
  let envelope : EnvelopeS :=
    { meta :=
        { statusCode := res.statusCode
          paging := if isPlainObj res.paging then some res.paging else none }
      data := if falsyJv res.data then Jv.obj [] else res.data }
  if res.statusCode = 204 then none else some envelope

/-! ### Error classifier — `errorResponse` (src/src/controller.js:235-333) -/

/-- The raw error inspected by `errorResponse`: `message` (`""` models an
absent message, which is falsy), the constructor `name`, the declared
`statusCode` as passed to `_.parseInt`, and the per-field messages of a
Mongoose `err.errors` collection.  The best-effort stack-line extraction and
the `meta`/`data` passthrough are diagnostic only and are not modelled. -/
structure JsError where
  message : String := ""
  name : Option String := none
  statusCode : Option String := none
  errors : List String := []

/-- The request-side validator collaborator: `req.validationErrors()` as a
list of `(param, msg)` pairs (empty = no validator or no errors). -/
structure ReqE where
  validationMsgs : List (String × String) := []

/-- Substring test on character lists (the `/E11000/.test(err.message)`
regex matches iff the marker occurs in the message). -/
def hasSub : List Char → List Char → Bool
  | [], pat => pat.isEmpty
  | l@(_ :: rest), pat => pat.isPrefixOf l || hasSub rest pat

/-- The well-known MongoDB duplicate-key marker. -/
def dupKeyMarker : List Char := "E11000".data

/-- `_.parseInt(err.statusCode) || 500` (src/src/controller.js:261): `NaN`
and `0` are falsy. -/
def parsedDeclaredStatus (err : JsError) : Int :=
  match err.statusCode.bind parseIntStr with
  | none => 500
  | some n => if n = 0 then 500 else n

/-- The classification computed by the branch chain of `errorResponse`
(src/src/controller.js:236-262): status code, the explicitly assigned
`error.type` when any, and the message. -/
structure ErrInfo where
  statusCode : Int
  type : Option String
  message : String

/-- The `if`/`else if` chain of `errorResponse`
(src/src/controller.js:238-262), first match wins: duplicate-key marker,
Mongoose validation, express-validator errors, then the fallback using the
error's own declared status. -/
def classifyError (err : JsError) (req : ReqE) : ErrInfo :=
  if hasSub err.message.data dupKeyMarker then
    { statusCode := 409, type := some "MONGODB_E11000", message := "Conflict" }
  else if err.name = some "ValidationError" then
    { statusCode := 400, type := some "MONGOOSE_VALIDATION_ERROR"
      message := String.intercalate ", " err.errors }
  else if !req.validationMsgs.isEmpty then
    { statusCode := 400, type := some "EXPRESS_VALIDATION_ERROR"
      message := String.intercalate ", "
        (req.validationMsgs.map (fun p => "[" ++ p.1 ++ " -> " ++ p.2 ++ "]")) }
  else
    { statusCode := parsedDeclaredStatus err, type := none
      message := if err.message = "" then "Internal Server Error" else err.message }

/-- The `meta` of an error envelope. -/
structure ErrClass where
  statusCode : Int
  errorType : String
  errorMessage : String

/-- The error-envelope metadata built by `errorResponse`
(src/src/controller.js:312-319): `errorType` is the classified `error.type`
when set, otherwise the `defaultErrorType` table entry for the status code. -/
def errorResponseMeta (err : JsError) (req : ReqE) : ErrClass :=
  let i := classifyError err req
  { statusCode := i.statusCode
    errorType := (i.type).getD (defaultErrorType i.statusCode)
    errorMessage := i.message }

/-! ### Content negotiator — `finalResponse`
(src/src/controller.js:340-379 and src/unnamed/part_002:644-682). -/

mutual
/-- The structural effect of `JSON.parse(JSON.stringify(v))` on a defined
value: an `undefined` array element becomes `null`, an `undefined` object
field is dropped, everything else round-trips unchanged. -/
def jsonClean : Jv → Jv
  | .undef => .null
  | .null => .null
  | .bool b => .bool b
  | .num n => .num n
  | .str s => .str s
  | .arr xs => .arr (jsonCleanList xs)
  | .obj fs => .obj (jsonCleanFields fs)

/-- Round-trip of an array's elements. -/
def jsonCleanList : List Jv → List Jv
  | [] => []
  | x :: xs => jsonClean x :: jsonCleanList xs

/-- Round-trip of an object's fields, dropping `undefined` ones. -/
def jsonCleanFields : List (String × Jv) → List (String × Jv)
  | [] => []
  | (_, .undef) :: fs => jsonCleanFields fs
  | (k, v) :: fs => (k, jsonClean v) :: jsonCleanFields fs
end

/-- `JSON.parse(JSON.stringify(v))`: `JSON.stringify(undefined)` is
`undefined`, so `JSON.parse` throws (`none`); every other value round-trips
structurally. -/
def jsonRoundtrip (v : Jv) : Option Jv :=
  match v with
  | .undef => none
  | v => some (jsonClean v)

mutual
/-- `xmlBuilder.buildObject` — a deterministic rendering standing in for the
external `xml2js.Builder` collaborator: object fields become tags, arrays and
scalars are concatenated text. -/
def buildXml : Jv → String
  | .undef => ""
  | .null => ""
  | .bool b => cond b "true" "false"
  | .num n => toString n
  | .str s => s
  | .arr xs => buildXmlList xs
  | .obj fs => buildXmlFields fs

/-- Render an array's elements. -/
def buildXmlList : List Jv → String
  | [] => ""
  | x :: xs => buildXml x ++ buildXmlList xs

/-- Render an object's fields as tags. -/
def buildXmlFields : List (String × Jv) → String
  | [] => ""
  | (k, v) :: fs => "<" ++ k ++ ">" ++ buildXml v ++ "</" ++ k ++ ">" ++ buildXmlFields fs
end

/-- The representation selected by `res.format` for the request's effective
accept type — an abstraction of the express accepts matching over the four
registered keys. -/
inductive AcceptKind where
  | jsonA
  | xmlA
  | textA
  | otherA
deriving DecidableEq

/-- The request state read by `finalResponse`: the path (for the extension
override) and the negotiated accept kind of its accept header. -/
structure ReqF where
  path : String
  accept : AcceptKind

/-- `/.json$/.test(path)`: any character followed by `json` at the end of the
path (the dot is unescaped in the source regex). -/
def testDotJson (p : String) : Bool :=
  "json".data.isSuffixOf p.data && decide (5 ≤ p.data.length)

/-- `/.xml$/.test(path)`: any character followed by `xml` at the end. -/
def testDotXml (p : String) : Bool :=
  "xml".data.isSuffixOf p.data && decide (4 ≤ p.data.length)

/-- The accept kind after the path-extension override
(src/src/controller.js:349-353). -/
def negotiated (req : ReqF) : AcceptKind :=
  if testDotJson req.path then .jsonA
  else if testDotXml req.path then .xmlA
  else req.accept

/-- The response state read by `finalResponse`: whether headers were already
sent, the envelope set by the normalization stages (`Jv.undef` when withheld),
and the raw `res.data`. -/
structure ResF where
  headersSent : Bool := false
  envelope : Jv := Jv.undef
  data : Jv := Jv.undef

/-- The single terminal write performed by `finalResponse`. -/
inductive SendOutcome where
  | silent
  | jsonSent (body : Jv)
  | xmlSent (contentType : String) (body : String)
  | textSent (body : Jv)
  | notAcceptable
  | bare (status : Int)

/-- Structural equality test on send outcomes. -/
def beqOutcome : SendOutcome → SendOutcome → Bool
  | .silent, .silent => true
  | .jsonSent a, .jsonSent b => beqJv a b
  | .xmlSent c a, .xmlSent d b => c == d && a == b
  | .textSent a, .textSent b => beqJv a b
  | .notAcceptable, .notAcceptable => true
  | .bare a, .bare b => a == b
  | _, _ => false

/-- `finalResponse` of the second part_002 controller
(src/unnamed/part_002:644-682): skip entirely if headers were sent; the `xml`
branch re-serializes `res.envelope` through the captured
`const xmlBuilder = this.xmlBuilder` with
`Content-Type: application/xml; charset=utf-8`, and any serialization throw is
caught and answered with `res.status(500).end()` — a bare 500, no body. -/
def finalResponseLib (req : ReqF) (res : ResF) : SendOutcome :=
  if res.headersSent then .silent
  else
    match negotiated req with
    | .jsonA => .jsonSent res.envelope
    | .xmlA =>
      match jsonRoundtrip res.envelope with
      | none => .bare 500
      | some v => .xmlSent "application/xml; charset=utf-8" (buildXml v)
    | .textA => .textSent res.envelope
    | .otherA => .notAcceptable

/-- `finalResponse` of src/src/controller.js:340-379.  Its `xml` branch
computes `xmlData` from `res.data` (not `res.envelope`) and then evaluates
`this.xmlBuilder.buildObject(xmlData)`; `this` inside the shorthand method of
the object literal passed to `res.format` is that object literal, which has no
`xmlBuilder` property, so the member access throws and every XML-negotiated
request lands in the `catch` — `res.status(500).end()`. -/
def finalResponseSrc (req : ReqF) (res : ResF) : SendOutcome :=
  if res.headersSent then .silent
  else
    match negotiated req with
    | .jsonA => .jsonSent res.envelope
    | .xmlA =>
      match jsonRoundtrip res.data with
      | none => .bare 500
      | some _ => .bare 500
    | .textA => .textSent res.envelope
    | .otherA => .notAcceptable

/-! ## Theorems -/

/-- One controller registering GET /a, then POST /a, then GET /a again. -/
def dupControllers : List (List RouteDef) :=
  [[{ method := some "GET", path := some "/a" },
    { method := some "POST", path := some "/a" },
    { method := some "GET", path := some "/a" }]]

/-- C1: evaluating `addControllerRoutes` on a controller that registers
GET /a, POST /a, GET /a connects all three routes — the second GET /a is not
skipped, because the de-duping map retains only the most recent method per
path, so the (get, /a) pair is connected twice and the route count grows by 2
for the duplicated pair, contradicting the claimed first-registration-wins
invariant. -/
theorem c1_duplicate_route_connected :
    addControllerRoutes dupControllers = [("get", "/a"), ("post", "/a"), ("get", "/a")] ∧
    (addControllerRoutes dupControllers).count ("get", "/a") = 2 := by
  constructor <;> decide

/-- The raw query of C2's test vector: `{limit: "0", page: "5"}`. -/
def q2 : PagingQuery := { limit := some "0", page := some "5" }

/-- C2 counterexample: `resolvePaging({limit:"0", page:"5"})` returns
`{offset: 0, limit: 0, page: 5}` — the page is 5, not the claimed 1. -/
theorem c2_counterexample :
    parsePagination q2 = { offset := 0, limit := 0, page := 5 } ∧
    ((parsePagination q2).page == (1 : Int)) = false := by
  constructor <;> rfl

/-- C2 (amended): for every raw query map whose limit (or count) parameter
parses to 0, the returned page is the parsed page value unchanged — whether
that value is positive, zero, or from an absent parameter, a zero limit never
forces page to 1 — and whenever the page parameter parses positive the offset
is recomputed to `(page-1)*limit = 0`. -/
theorem c2_page_not_forced (q : PagingQuery) (hl : parsedLimit q = 0) :
    (parsePagination q).page = parsedPage q ∧
    (parsedPage q > 0 → (parsePagination q).offset = 0) := by
  refine ⟨rfl, fun hp => ?_⟩
  unfold parsePagination
  simp [hl, hp]

/-- C2 witness: the amended statement at `{limit:"0", page:"5"}`. -/
theorem c2_witness :
    parsedLimit q2 = 0 ∧ parsedPage q2 > 0 ∧
    (parsePagination q2).page = parsedPage q2 ∧ (parsePagination q2).offset = 0 :=
  ⟨by decide, by decide, (c2_page_not_forced q2 (by decide)).1,
    (c2_page_not_forced q2 (by decide)).2 (by decide)⟩

/-- The raw query of C3's test vector: `{offset: "50", limit: "25"}`. -/
def q3 : PagingQuery := { offset := some "50", limit := some "25" }

/-- C3 counterexample: `resolvePaging({offset:"50", limit:"25"})` returns
`{offset: 50, limit: 25, page: 0}` — the page is 0, not the claimed
`ceil(51/25) = 3`. -/
theorem c3_counterexample :
    parsePagination q3 = { offset := 50, limit := 25, page := 0 } ∧
    ((parsePagination q3).page == (3 : Int)) = false := by
  constructor <;> rfl

/-- C3 (amended): when no positive page parameter is supplied the resolver
performs no back-computation — the offset is returned as parsed and the page
is the parsed page value (0 when the parameter is absent), whatever the
limit. -/
theorem c3_no_backcompute (q : PagingQuery) (hp : parsedPage q ≤ 0) :
    (parsePagination q).offset = parsedOffset0 q ∧
    (parsePagination q).page = parsedPage q := by
  unfold parsePagination
  simp [not_lt.mpr hp]

/-- C3 witness: the amended statement at `{offset:"50", limit:"25"}`. -/
theorem c3_witness :
    parsedPage q3 ≤ 0 ∧
    (parsePagination q3).offset = parsedOffset0 q3 ∧
    (parsePagination q3).page = parsedPage q3 :=
  ⟨by decide, (c3_no_backcompute q3 (by decide)).1, (c3_no_backcompute q3 (by decide)).2⟩

/-- C4 counterexample: 418 is a 4xx status with no specific table entry, yet
its fallback errorType is INTERNAL_SERVER_ERROR, not UNKNOWN_CLIENT_ERROR;
likewise 502 falls back to INTERNAL_SERVER_ERROR, not UNKNOWN_SERVER_ERROR. -/
theorem c4_counterexample :
    defaultErrorType 418 = "INTERNAL_SERVER_ERROR" ∧
    (defaultErrorType 418 == "UNKNOWN_CLIENT_ERROR") = false ∧
    defaultErrorType 502 = "INTERNAL_SERVER_ERROR" ∧
    (defaultErrorType 502 == "UNKNOWN_SERVER_ERROR") = false := by
  refine ⟨rfl, ?_, rfl, ?_⟩ <;> rfl

/-- C4 (amended): every status code with no specific entry in the
classification switch falls back to INTERNAL_SERVER_ERROR — the same value
for 4xx and 5xx alike, with no UNKNOWN_CLIENT_ERROR / UNKNOWN_SERVER_ERROR
buckets; the specific entries include 400 → BAD_REQUEST, 404 → NOT_FOUND,
409 → CONFLICT and 500 → INTERNAL_SERVER_ERROR. -/
theorem c4_fallback (sc : Int) (h : sc ∉ specificCodes) :
    defaultErrorType sc = "INTERNAL_SERVER_ERROR" ∧
    defaultErrorType 400 = "BAD_REQUEST" ∧
    defaultErrorType 404 = "NOT_FOUND" ∧
    defaultErrorType 409 = "CONFLICT" ∧
    defaultErrorType 500 = "INTERNAL_SERVER_ERROR" := by
  refine ⟨?_, rfl, rfl, rfl, rfl⟩
  simp only [specificCodes, List.mem_cons, List.not_mem_nil, or_false] at h
  push_neg at h
  obtain ⟨h400, h401, h402, h403, h404, h405, h406, h409, h410, h501, -⟩ := h
  simp [defaultErrorType, h400, h401, h402, h403, h404, h405, h406, h409, h410, h501]

/-- C4 witness: the amended fallback at status 418. -/
theorem c4_witness :
    (418 : Int) ∉ specificCodes ∧ defaultErrorType 418 = "INTERNAL_SERVER_ERROR" :=
  ⟨by decide, (c4_fallback 418 (by decide)).1⟩

/-- A well-formed success envelope for an XML-negotiated request. -/
def envelope5 : Jv :=
  Jv.obj [("meta", Jv.obj [("statusCode", Jv.num 200)]), ("data", Jv.obj [])]

/-- An XML-accepting request with no path-extension override. -/
def req5 : ReqF := { path := "/things", accept := AcceptKind.xmlA }

/-- A response carrying the envelope of `envelope5` and distinct raw data. -/
def res5 : ResF :=
  { headersSent := false, envelope := envelope5, data := Jv.obj [("x", Jv.num 1)] }

/-- C5: at an XML-negotiated request with a perfectly serializable envelope,
the src/src/controller.js `finalResponse` answers a bare 500 (its xml branch
reads `res.data`, not the envelope, and dereferences `this.xmlBuilder` on the
format-callback object, which has no such property, so it always throws into
the catch), while the part_002 variant serializes the envelope with
`Content-Type: application/xml; charset=utf-8` as the claim describes. -/
theorem c5_src_xml_always_bare500 :
    finalResponseSrc req5 res5 = SendOutcome.bare 500 ∧
    finalResponseLib req5 res5 =
      SendOutcome.xmlSent "application/xml; charset=utf-8"
        "<meta><statusCode>200</statusCode></meta><data></data>" := by
  constructor <;> rfl

/-- C6: for every error whose message contains the E11000 duplicate-key
marker, classification yields statusCode 409 and the CONFLICT-family
errorType MONGODB_E11000, regardless of the error's own name, declared
status, or any pending request validation errors — the duplicate-key test is
the first branch of the classifier. -/
theorem c6_e11000_conflict (err : JsError) (req : ReqE)
    (h : hasSub err.message.data dupKeyMarker = true) :
    (errorResponseMeta err req).statusCode = 409 ∧
    (errorResponseMeta err req).errorType = "MONGODB_E11000" := by
  unfold errorResponseMeta classifyError
  simp [h]

/-- An error that carries the duplicate-key marker while also declaring a
Mongoose validation name and a 200 status. -/
def err6 : JsError :=
  { message := "E11000 duplicate key error collection"
    name := some "ValidationError"
    statusCode := some "200"
    errors := ["field invalid"] }

/-- A request whose validator reports a pending validation error. -/
def req6 : ReqE := { validationMsgs := [("name", "required")] }

/-- C6 witness: the duplicate-key classification at a concrete error that
also declares status 200, a ValidationError name and pending request
validation errors. -/
theorem c6_witness :
    hasSub err6.message.data dupKeyMarker = true ∧
    (errorResponseMeta err6 req6).statusCode = 409 ∧
    (errorResponseMeta err6 req6).errorType = "MONGODB_E11000" :=
  ⟨by decide, (c6_e11000_conflict err6 req6 (by decide)).1,
    (c6_e11000_conflict err6 req6 (by decide)).2⟩

/-- A route naming the same field in both the blacklist and the whitelist. -/
def route7 : RouteLists := { blacklist := ["a"], whitelist := ["a"] }

/-- A request whose query contains the doubly-named field `a`. -/
def req7 : ReqMaps := { query := [("a", "1"), ("b", "2")] }

/-- C7 counterexample: with blacklist = whitelist = ["a"] and query
`{a: "1", b: "2"}`, the handler leaves an empty query — the field `a` named
in both lists is NOT kept, refuting the claim that the whitelist wins for
overlapping fields. -/
theorem c7_counterexample :
    (handlerParamFilter route7 req7).query = [] ∧
    ((handlerParamFilter route7 req7).query.any (fun p => p.1 == "a")) = false := by
  constructor <;> rfl

/-- A member of `jsOmit m ks` never has a key named in `ks`. -/
theorem mem_jsOmit {m : List (String × String)} {ks : List String}
    {p : String × String} (h : p ∈ jsOmit m ks) : ks.contains p.1 = false := by
  have h2 := (List.mem_filter.mp h).2
  simpa using h2

/-- When the blacklist is non-empty, no blacklisted key survives the omit
then pick sequence, whatever the whitelist: the pick can only narrow the
already-omitted map. -/
theorem applyListFilters_no_blacklisted (bl wl : List String)
    (m : List (String × String)) (hbl : bl.isEmpty = false) :
    ∀ p ∈ applyListFilters bl wl m, bl.contains p.1 = false := by
  intro p hp
  simp only [applyListFilters, hbl, Bool.false_eq_true, if_false] at hp
  split at hp
  · exact mem_jsOmit hp
  · exact mem_jsOmit (List.mem_filter.mp hp).1

/-- C7 (amended): the inner handler removes blacklisted fields from
params/query/body first and then, if the whitelist is non-empty, keeps only
whitelisted fields among those remaining; a field named in both lists is
removed — the blacklist effectively wins, because the whitelist pick cannot
restore a field the blacklist omit already dropped. -/
theorem c7_blacklist_wins (route : RouteLists) (req : ReqMaps)
    (hbl : route.blacklist.isEmpty = false) :
    (∀ p ∈ (handlerParamFilter route req).params, route.blacklist.contains p.1 = false) ∧
    (∀ p ∈ (handlerParamFilter route req).query, route.blacklist.contains p.1 = false) ∧
    (∀ p ∈ (handlerParamFilter route req).body, route.blacklist.contains p.1 = false) :=
  ⟨applyListFilters_no_blacklisted _ _ _ hbl,
    applyListFilters_no_blacklisted _ _ _ hbl,
    applyListFilters_no_blacklisted _ _ _ hbl⟩

/-- A route with a blacklist but no whitelist. -/
def route7w : RouteLists := { blacklist := ["a"], whitelist := [] }

/-- C7 witness: the amended statement at a concrete route and request — the
surviving field `b` is not blacklisted. -/
theorem c7_witness :
    route7w.blacklist.isEmpty = false ∧ route7w.blacklist.contains "b" = false :=
  ⟨by decide, (c7_blacklist_wins route7w req7 (by decide)).2.1 ("b", "2") (by decide)⟩

/-- Combining clauses does not invent or drop equality fields. -/
theorem exprFields_combine (op : String) (fs : List Filter) :
    exprFields (combineQueries op fs) = fs.flatMap filterFields := by
  match fs with
  | [] => rfl
  | [f] => simp [combineQueries, exprFields]
  | f1 :: f2 :: rest => rfl

/-- Every equality field of a built clause is the clause's key. -/
theorem fields_mkClause (key : String) (tvals : List QVal) :
    ∀ x ∈ filterFields (mkClause key tvals), x = key := by
  intro x hx
  unfold mkClause at hx
  split at hx
  · simpa [filterFields] using hx
  · simp only [filterFields, List.map_map, List.mem_map] at hx
    obtain ⟨tv, -, hxe⟩ := hx
    exact hxe.symm

/-- Every equality field of a filter compiled from the raw parameter
`(key, value)` is that key. -/
theorem fields_compileParam (schema : List (String × String)) (kv : String × String)
    (f : Filter) (h : compileParam schema kv = some f) :
    ∀ x ∈ filterFields f, x = kv.1 := by
  intro x hx
  unfold compileParam at h
  by_cases h1 : kv.2 = "*"
  · rw [if_pos h1] at h
    exact Option.noConfusion h
  rw [if_neg h1] at h
  by_cases h2 : (splitCommas kv.2).isEmpty = true
  · rw [if_pos h2] at h
    exact Option.noConfusion h
  rw [if_neg h2] at h
  cases hl : schema.lookup kv.1 with
  | none =>
    rw [hl] at h
    exact Option.noConfusion h
  | some type =>
    rw [hl] at h
    simp only [] at h
    cases ht : transformVals type (splitCommas kv.2) with
    | none =>
      rw [ht] at h
      exact Option.noConfusion h
    | some tvals =>
      rw [ht, Option.map_some'] at h
      rw [Option.some.injEq] at h
      subst h
      exact fields_mkClause kv.1 tvals x hx

/-- C8: the compiled FilterExpression contains no equality field absent from
the schema — raw query keys that are not declared in `queryParams` are
dropped by the `_.pick` restriction and never appear in the output
expression. -/
theorem c8_schema_keys_only (schema raw : List (String × String)) (k : String)
    (hk : k ∈ exprFields (parseQueryParams schema raw)) :
    schemaHas schema k = true := by
  unfold parseQueryParams at hk
  rw [exprFields_combine, List.mem_flatMap] at hk
  obtain ⟨f, hf, hxf⟩ := hk
  rw [List.mem_filterMap] at hf
  obtain ⟨p, hp, hcp⟩ := hf
  have hks := (List.mem_filter.mp hp).2
  have hkp := fields_compileParam schema p f hcp k hxf
  rw [hkp]
  exact hks

/-- A schema declaring only the string parameter `a`. -/
def schema8 : List (String × String) := [("a", "string")]

/-- A raw query containing the declared key `a` and the undeclared `zzz`. -/
def raw8 : List (String × String) := [("a", "x"), ("zzz", "1")]

/-- C8 witness: the only field compiled from `raw8` under `schema8` is `a`,
and it is schema-declared. -/
theorem c8_witness :
    "a" ∈ exprFields (parseQueryParams schema8 raw8) ∧ schemaHas schema8 "a" = true :=
  ⟨by decide, c8_schema_keys_only schema8 raw8 "a" (by decide)⟩

/-- A success response with status 200 whose handler data is the falsy
number 0. -/
def res9 : ResS := { statusCode := 200, data := Jv.num 0 }

/-- C9 counterexample: a 200 success whose handler set `res.data = 0`
produces an envelope whose data is the empty object `{}`, not the handler's
data — `res.data || {}` replaces every falsy data value. -/
theorem c9_counterexample :
    successResponse res9 =
      some { meta := { statusCode := 200, paging := none }, data := Jv.obj [] } ∧
    beqJv (Jv.obj []) res9.data = false := by
  constructor <;> rfl

/-- C9 (amended): a 204 success response carries no envelope at all (the
envelope is withheld), while every other success status yields an envelope
with `meta.statusCode` set to the response status and `data` equal to the
handler's data when that data is truthy, with the empty object substituted
when it is absent or falsy. -/
theorem c9_envelope (res res2 : ResS) (h : res.statusCode = 204)
    (h2 : res2.statusCode ≠ 204) :
    successResponse res = none ∧
    ∃ env, successResponse res2 = some env ∧
      env.meta.statusCode = res2.statusCode ∧
      env.data = (if falsyJv res2.data then Jv.obj [] else res2.data) := by
  constructor
  · simp [successResponse, h]
  · exact ⟨EnvelopeS.mk
      (MetaS.mk res2.statusCode
        (if isPlainObj res2.paging then some res2.paging else none))
      (if falsyJv res2.data then Jv.obj [] else res2.data),
      by simp [successResponse, h2], rfl, rfl⟩

/-- C9 witness: the amended statement at a 204 response and a 200 response
with truthy data. -/
theorem c9_witness :
    successResponse { statusCode := 204 } = none ∧
    ∃ env, successResponse { statusCode := 200, data := Jv.str "x" } = some env ∧
      env.meta.statusCode = (200 : Int) ∧
      env.data = (if falsyJv (Jv.str "x") then Jv.obj [] else Jv.str "x") :=
  c9_envelope { statusCode := 204 } { statusCode := 200, data := Jv.str "x" }
    rfl (by decide)

/-- Splitting always produces at least the chunk accumulated so far. -/
theorem splitCommaAux_length (l : List Char) :
    ∀ acc, 1 ≤ (splitCommaAux l acc).length := by
  induction l with
  | nil => intro acc; simp [splitCommaAux]
  | cons c cs ih =>
    intro acc
    unfold splitCommaAux
    split
    · simp
    · exact ih _

/-- C10: splitting any string value on `,` yields at least one token — so
the `vals.length === 0` branch that would drop the key is unreachable — and
the empty-string value compiles to an equality of the key with `""` rather
than removing the key from the filter. -/
theorem c10_split_nonempty :
    (∀ s : String, 1 ≤ (splitCommas s).length) ∧
    parseQueryParams [("k", "string")] [("k", "")] =
      QueryExpr.single (Filter.eq "k" (QVal.s "")) := by
  constructor
  · intro s
    exact splitCommaAux_length s.data []
  · decide

end Nodemigo
